import Mathlib

/-!
Shallow embedding of the request-validation / authentication / product-query
core of the `products-demo-api` repository (TypeScript + Express + SQL Server),
together with theorems settling the specification claims about it.

Conventions of the embedding:
* Database access (`dbConnection.executeStoredProcedure` / `executeQuery`) is
  an external collaborator; each service operation takes the store's response
  for the calls it issues as an explicit argument, and operations that issue
  mutating calls also return the ordered list of store calls they performed.
* TypeScript `undefined` for an optional field is `Option.none`; SQL `NULL`
  is also `Option.none` on nullable record fields.
* JavaScript `throw new Error(msg)` / `throw new AppError(...)` is an
  `Except.error`; `try/catch` wrappers are modelled by matching on the inner
  result exactly as the catch block does.
* Numeric JSON values (prices) are rationals; ids and counts are naturals.
-/

/-! ## Data model (src/backend/src/types, database rows) -/

/-- JWT payload attached to a request: userId, username, email
(`JwtPayload` in auth.types.ts; iat/exp are managed by the jwt library). -/
structure JwtPayload where
  userId : Nat
  username : String
  email : String
deriving DecidableEq

/-- A `Users` row as returned by the store: includes the password hash column
(nullable, absent on projected reads). -/
structure UserRec where
  id : Nat
  username : String
  email : String
  passwordHash : Option String
  createdAt : String
  updatedAt : String
deriving DecidableEq

/-- A `Products` row (product.types / database schema). `description` is
nullable. Prices are decimals, embedded as rationals. -/
structure ProductRec where
  id : Nat
  name : String
  description : Option String
  price : ℚ
  category : String
  createdAt : String
  updatedAt : String
deriving DecidableEq

/-- A row of the `GetProducts` stored procedure result set:
a product row with the window total-count column attached. -/
structure ProductRow extends ProductRec where
  TotalCount : Nat
deriving DecidableEq

/-! ## jsonwebtoken library and AuthService.verifyToken -/

/-- Outcome of `jwt.verify` as observed by the calling code: success, or an
error distinguished by its `name` (`TokenExpiredError`, `JsonWebTokenError`,
anything else). -/
inductive JwtVerifyOutcome where
  | ok (payload : JwtPayload)
  | tokenExpiredError
  | jsonWebTokenError
  | otherError
deriving DecidableEq

/-- Modelled from the spec: the external `jsonwebtoken` library's `verify`.
A token whose signature/structure is malformed fails with
`JsonWebTokenError`; a well-formed token whose expiry has passed fails with
`TokenExpiredError`; otherwise the embedded claims are returned. -/
structure JwtToken where
  wellFormed : Bool
  payload : JwtPayload
  exp : Nat
deriving DecidableEq

/-- Modelled from the spec: `jwt.verify` checks signature/structure, then
expiry against the current time. -/
def jwtVerify (t : JwtToken) (now : Nat) : JwtVerifyOutcome :=
  if !t.wellFormed then .jsonWebTokenError
  else if t.exp < now then .tokenExpiredError
  else .ok t.payload

/-- `AuthService.verifyToken` (auth.service.ts lines 138-155): maps the jwt
library outcome to a typed error message. -/
def verifyToken : JwtVerifyOutcome → Except String JwtPayload
  | .ok decoded => .ok decoded
  | .tokenExpiredError => .error "Token expired"
  | .jsonWebTokenError => .error "Invalid token"
  | .otherError => .error "Token verification failed"

/-! ## Authentication gate (auth.middleware.ts) -/

/-- Helper for `jsSplitSpace`: accumulates the current field (reversed). -/
def splitOnSpaceAux : List Char → List Char → List String
  | [], acc => [String.mk acc.reverse]
  | c :: cs, acc =>
    if c = ' ' then String.mk acc.reverse :: splitOnSpaceAux cs []
    else splitOnSpaceAux cs (c :: acc)

/-- JavaScript `header.split(' ')`: split on every single space, keeping
empty fields (so `"Bearer "` splits to `["Bearer", ""]`). -/
def jsSplitSpace (s : String) : List String :=
  splitOnSpaceAux s.toList []

/-- Result of running an Express middleware on a request: either a response
was written and the chain stopped, or `next()` was called (with the
optionally attached `req.user`). -/
inductive AuthOutcome where
  | rejected (status : Nat) (error : String) (message : String)
  | proceed (user : Option JwtPayload)
deriving DecidableEq

/-- `AuthOutcome.proceed` predicate: the downstream handler is invoked. -/
def AuthOutcome.isProceed : AuthOutcome → Bool
  | .rejected _ _ _ => false
  | .proceed _ => true

/-- `authenticate` middleware (auth.middleware.ts lines 37-109), required
mode. `verify` is `authService.verifyToken` applied to the extracted token
(an `Except` in place of the thrown errors); `getUserById` is
`authService.getUserById` (which swallows store failures into `null`). -/
def authenticate (authHeader : Option String)
    (verify : String → Except String JwtPayload)
    (getUserById : Nat → Option UserRec) : AuthOutcome :=
  match authHeader with
  | none => .rejected 401 "Authorization header missing" "Access token is required"
  | some header =>
    match jsSplitSpace header with
    | [bearer, token] =>
      if bearer ≠ "Bearer" then
        .rejected 401 "Invalid authorization format"
          "Authorization header must be in format: Bearer <token>"
      else if token = "" then
        .rejected 401 "Invalid token" "Token cannot be empty"
      else
        match verify token with
        | .error msg =>
          .rejected 401 "Authentication failed"
            (if msg = "Token expired" then "Token has expired"
             else if msg = "Invalid token" then "Invalid token provided"
             else "Authentication failed")
        | .ok decoded =>
          match getUserById decoded.userId with
          | none => .rejected 401 "User not found"
              "The user associated with this token no longer exists"
          | some _ => .proceed (some decoded)
    | _ =>
      .rejected 401 "Invalid authorization format"
        "Authorization header must be in format: Bearer <token>"

/-- `optionalAuthenticate` middleware (auth.middleware.ts lines 114-139):
attaches the decoded payload when a well-shaped bearer token verifies, and
otherwise proceeds unauthenticated (verification errors are caught and
swallowed). -/
def optionalAuthenticate (authHeader : Option String)
    (verify : String → Except String JwtPayload) : AuthOutcome :=
  match authHeader with
  | none => .proceed none
  | some header =>
    match jsSplitSpace header with
    | [bearer, token] =>
      if bearer = "Bearer" ∧ token ≠ "" then
        match verify token with
        | .ok decoded => .proceed (some decoded)
        | .error _ => .proceed none
      else .proceed none
    | _ => .proceed none

/-! ## Theorems: C1, C6, C7 -/

/-- C1: in required mode, the authentication gate rejects every
non-authenticated outcome with a 401 and never invokes the downstream
handler: missing header, malformed header (not exactly `Bearer <token>`),
empty token, failed verification, and verified token whose user no longer
exists are all 401 rejections, and the missing-header message differs from
the malformed-header message. -/
theorem authenticate_required_rejects_all_unauthenticated :
    (∀ v g, authenticate none v g =
      .rejected 401 "Authorization header missing" "Access token is required") ∧
    (∀ h v g, (∀ t, jsSplitSpace h ≠ ["Bearer", t]) →
      authenticate (some h) v g =
        .rejected 401 "Invalid authorization format"
          "Authorization header must be in format: Bearer <token>") ∧
    (∀ h v g, jsSplitSpace h = ["Bearer", ""] →
      authenticate (some h) v g =
        .rejected 401 "Invalid token" "Token cannot be empty") ∧
    (∀ h t v g e, jsSplitSpace h = ["Bearer", t] → t ≠ "" → v t = .error e →
      ∃ m, authenticate (some h) v g = .rejected 401 "Authentication failed" m) ∧
    (∀ h t v g p, jsSplitSpace h = ["Bearer", t] → t ≠ "" → v t = .ok p →
      g p.userId = none →
      authenticate (some h) v g =
        .rejected 401 "User not found"
          "The user associated with this token no longer exists") ∧
    ("Access token is required" ≠
      "Authorization header must be in format: Bearer <token>") ∧
    (∀ h v g, (authenticate h v g).isProceed = true →
      ∃ p, authenticate h v g = .proceed (some p)) := by
  refine ⟨fun v g => rfl, ?_, ?_, ?_, ?_, by decide, ?_⟩
  · intro h v g hshape
    unfold authenticate
    cases hsp : jsSplitSpace h with
    | nil => simp [hsp]
    | cons a l =>
      cases l with
      | nil => simp [hsp]
      | cons b l' =>
        cases l' with
        | nil =>
          by_cases hb : a = "Bearer"
          · exact absurd (by rw [hsp, hb]) (hshape b)
          · simp [hsp, hb]
        | cons c l'' => simp [hsp]
  · intro h v g hsp
    unfold authenticate
    simp [hsp]
  · intro h t v g e hsp ht hv
    unfold authenticate
    simp [hsp, ht, hv]
  · intro h t v g p hsp ht hv hg
    unfold authenticate
    simp [hsp, ht, hv, hg]
  · intro h v g
    unfold authenticate
    cases h with
    | none => simp [AuthOutcome.isProceed]
    | some header =>
      cases hsp : jsSplitSpace header with
      | nil => simp [hsp, AuthOutcome.isProceed]
      | cons a l =>
        cases l with
        | nil => simp [hsp, AuthOutcome.isProceed]
        | cons b l' =>
          cases l' with
          | nil =>
            by_cases hb : a = "Bearer"
            · by_cases hbt : b = ""
              · simp [hsp, hb, hbt, AuthOutcome.isProceed]
              · cases hv : v b with
                | error e => simp [hsp, hb, hbt, hv, AuthOutcome.isProceed]
                | ok p =>
                  cases hg : g p.userId with
                  | none => simp [hsp, hb, hbt, hv, hg, AuthOutcome.isProceed]
                  | some u =>
                    intro _
                    exact ⟨p, by simp [hsp, hb, hbt, hv, hg]⟩
            · simp [hsp, hb, AuthOutcome.isProceed]
          | cons c l'' => simp [hsp, AuthOutcome.isProceed]

/-- Witness for C1: concrete instantiations of each hypothesis-guarded
conjunct of `authenticate_required_rejects_all_unauthenticated`. -/
theorem authenticate_required_rejects_all_unauthenticated_witness :
    authenticate (some "Token abc")
      (fun _ => .error "Invalid token") (fun _ => none) =
      .rejected 401 "Invalid authorization format"
        "Authorization header must be in format: Bearer <token>" ∧
    authenticate (some "Bearer ")
      (fun _ => .error "Invalid token") (fun _ => none) =
      .rejected 401 "Invalid token" "Token cannot be empty" ∧
    authenticate (some "Bearer abc")
      (fun _ => .error "Token expired") (fun _ => none) =
      .rejected 401 "Authentication failed" "Token has expired" ∧
    authenticate (some "Bearer abc")
      (fun _ => .ok ⟨7, "u", "e"⟩) (fun _ => none) =
      .rejected 401 "User not found"
        "The user associated with this token no longer exists" := by
  refine ⟨?_, ?_, ?_, ?_⟩
  · refine authenticate_required_rejects_all_unauthenticated.2.1 "Token abc"
      (fun _ => .error "Invalid token") (fun _ => none) ?_
    intro t hc
    rw [show jsSplitSpace "Token abc" = ["Token", "abc"] from by decide] at hc
    simp at hc
  · exact authenticate_required_rejects_all_unauthenticated.2.2.1 "Bearer "
      (fun _ => .error "Invalid token") (fun _ => none) (by decide)
  · obtain ⟨m, hm⟩ := authenticate_required_rejects_all_unauthenticated.2.2.2.1
      "Bearer abc" "abc" (fun _ => .error "Token expired") (fun _ => none)
      "Token expired" (by decide) (by decide) rfl
    have hm2 : m = "Token has expired" := by
      rw [show authenticate (some "Bearer abc")
          (fun _ => .error "Token expired") (fun _ => none) =
          AuthOutcome.rejected 401 "Authentication failed" "Token has expired"
        from by decide] at hm
      exact ((AuthOutcome.rejected.inj hm).2.2).symm
    exact hm2 ▸ hm
  · exact authenticate_required_rejects_all_unauthenticated.2.2.2.2.1
      "Bearer abc" "abc" (fun _ => .ok ⟨7, "u", "e"⟩) (fun _ => none)
      ⟨7, "u", "e"⟩ (by decide) (by decide) rfl rfl

/-- C6: `verifyToken` maps the two verification failure kinds to
distinguishable outcomes: a well-formed token past expiry always fails with
"Token expired" (never "Invalid token"), a token with malformed
signature/structure fails with "Invalid token", and the two messages
differ. -/
theorem verifyToken_failure_kinds_distinguishable :
    (∀ t now, t.wellFormed = true → t.exp < now →
      verifyToken (jwtVerify t now) = .error "Token expired") ∧
    (∀ t now, t.wellFormed = false →
      verifyToken (jwtVerify t now) = .error "Invalid token") ∧
    (Except.error "Token expired" ≠
      (Except.error "Invalid token" : Except String JwtPayload)) := by
  refine ⟨?_, ?_, by simp⟩
  · intro t now hw hexp
    simp [jwtVerify, hw, hexp, verifyToken]
  · intro t now hw
    simp [jwtVerify, hw, verifyToken]

/-- Witness for C6: a concrete expired token and a concrete malformed token
produce the two distinct outcomes. -/
theorem verifyToken_failure_kinds_distinguishable_witness :
    verifyToken (jwtVerify ⟨true, ⟨1, "u", "e"⟩, 10⟩ 11) = .error "Token expired" ∧
    verifyToken (jwtVerify ⟨false, ⟨1, "u", "e"⟩, 10⟩ 5) = .error "Invalid token" :=
  ⟨verifyToken_failure_kinds_distinguishable.1 ⟨true, ⟨1, "u", "e"⟩, 10⟩ 11
      rfl (by decide),
   verifyToken_failure_kinds_distinguishable.2.1 ⟨false, ⟨1, "u", "e"⟩, 10⟩ 5 rfl⟩

/-- C7: in optional mode the gate never rejects: it always proceeds; with no
Authorization header it proceeds unauthenticated, and whenever the token of
a well-shaped header fails verification the failure is swallowed and the
request proceeds unauthenticated. -/
theorem optionalAuthenticate_never_rejects :
    (∀ h v, ∃ u, optionalAuthenticate h v = .proceed u) ∧
    (∀ v, optionalAuthenticate none v = .proceed none) ∧
    (∀ h t v e, jsSplitSpace h = ["Bearer", t] → v t = .error e →
      optionalAuthenticate (some h) v = .proceed none) := by
  refine ⟨?_, fun v => rfl, ?_⟩
  · intro h v
    unfold optionalAuthenticate
    cases h with
    | none => exact ⟨none, rfl⟩
    | some header =>
      cases hsp : jsSplitSpace header with
      | nil => exact ⟨none, by simp [hsp]⟩
      | cons a l =>
        cases l with
        | nil => exact ⟨none, by simp [hsp]⟩
        | cons b l' =>
          cases l' with
          | nil =>
            by_cases hcond : a = "Bearer" ∧ b ≠ ""
            · cases hv : v b with
              | ok p => exact ⟨some p, by simp [hsp, hcond, hv]⟩
              | error e => exact ⟨none, by simp [hsp, hcond, hv]⟩
            · exact ⟨none, by simp [hsp, hcond]⟩
          | cons c l'' => exact ⟨none, by simp [hsp]⟩
  · intro h t v e hsp hv
    unfold optionalAuthenticate
    by_cases ht : t = ""
    · simp [hsp, ht]
    · simp [hsp, ht, hv]

/-- Witness for C7: a request with a well-shaped header whose token fails
verification proceeds unauthenticated. -/
theorem optionalAuthenticate_never_rejects_witness :
    optionalAuthenticate (some "Bearer abc") (fun _ => .error "Token expired") =
      .proceed none :=
  optionalAuthenticate_never_rejects.2.2 "Bearer abc" "abc"
    (fun _ => .error "Token expired") "Token expired" (by decide) rfl

/-! ## Product query service (product.service.ts) -/

/-- `AppError` (error.middleware.ts): message, HTTP status code, machine
code (`code || 'INTERNAL_ERROR'` is resolved at construction). -/
structure AppError where
  message : String
  statusCode : Nat
  code : String
deriving DecidableEq

/-- Query descriptor for `getProducts` (`ProductQuery` in product.types):
all fields optional; `pageNumber`/`pageSize` are defaulted by destructuring
in the service, `sortBy`/`sortOrder` are accepted but not used by it. -/
structure ProductQuery where
  pageNumber : Option Nat
  pageSize : Option Nat
  category : Option String
  searchTerm : Option String
  sortBy : Option String
  sortOrder : Option String
  minPrice : Option ℚ
  maxPrice : Option ℚ
deriving DecidableEq

/-- Pagination block of a product list response. -/
structure Pagination where
  currentPage : Nat
  pageSize : Nat
  totalCount : Nat
  totalPages : Nat
  hasNextPage : Bool
  hasPreviousPage : Bool
deriving DecidableEq

/-- The `filters` echo block (each key present only when supplied/truthy). -/
structure ProductFilters where
  category : Option String
  searchTerm : Option String
  minPrice : Option ℚ
  maxPrice : Option ℚ
deriving DecidableEq

/-- `ProductListResponse`: items, pagination, optional filters echo. -/
structure ProductListResponse where
  products : List ProductRec
  pagination : Pagination
  filters : Option ProductFilters
deriving DecidableEq

/-- JavaScript truthiness of an optional string (`category || searchTerm`
in the filters condition: absent and empty are both falsy). -/
def truthyStr : Option String → Bool
  | none => false
  | some s => s != ""

/-- `Math.ceil(totalCount / pageSize)` on naturals (pageSize ≥ 1 in every
validated request; JavaScript would give `Infinity` at pageSize = 0). -/
def jsMathCeilDiv (a b : Nat) : Nat := (a + b - 1) / b

/-- `ProductService.getProducts` (product service lines 323-413 of the
embedded source). The store response for the `GetProducts` call is passed
explicitly; a store failure is wrapped into `PRODUCTS_FETCH_ERROR`. Dates
are kept as opaque strings, so `toISOString()` is the identity. -/
def getProducts (query : ProductQuery)
    (storeResp : Except String (List ProductRow)) :
    Except AppError ProductListResponse :=
  match storeResp with
  | .error _ => .error ⟨"Failed to retrieve products", 500, "PRODUCTS_FETCH_ERROR"⟩
  | .ok recordset =>
    let pageNumber := query.pageNumber.getD 1
    let pageSize := query.pageSize.getD 10
    if recordset.isEmpty then
      .ok { products := [],
            pagination :=
              { currentPage := pageNumber, pageSize := pageSize,
                totalCount := 0, totalPages := 0,
                hasNextPage := false, hasPreviousPage := false },
            filters := none }
    else
      let totalCount := (recordset.head?.map (·.TotalCount)).getD 0
      let totalPages := jsMathCeilDiv totalCount pageSize
      let products :=
        if query.minPrice.isSome || query.maxPrice.isSome then
          recordset.filter (fun product =>
            !(match query.minPrice with
              | some m => decide (product.price < m)
              | none => false) &&
            !(match query.maxPrice with
              | some M => decide (M < product.price)
              | none => false))
        else recordset
      let formattedProducts := products.map (·.toProductRec)
      .ok { products := formattedProducts,
            pagination :=
              { currentPage := pageNumber, pageSize := pageSize,
                totalCount := totalCount, totalPages := totalPages,
                hasNextPage := decide (pageNumber < totalPages),
                hasPreviousPage := decide (1 < pageNumber) },
            filters :=
              if truthyStr query.category || truthyStr query.searchTerm ||
                  query.minPrice.isSome || query.maxPrice.isSome then
                some { category := if truthyStr query.category then query.category else none,
                       searchTerm := if truthyStr query.searchTerm then query.searchTerm else none,
                       minPrice := query.minPrice,
                       maxPrice := query.maxPrice }
              else none }

/-- `UpdateProductDto`: the partial update body (every field optional;
absent = `undefined`). -/
structure UpdateProductDto where
  name : Option String
  description : Option String
  price : Option ℚ
  category : Option String
deriving DecidableEq

/-- Parameter record of the `UpdateProduct` stored procedure call. -/
structure UpdateProductInput where
  Id : Nat
  Name : String
  Description : Option String
  Price : ℚ
  Category : String
deriving DecidableEq

/-- A store call issued by the product service (the calls relevant to the
update/delete paths). -/
inductive StoreCall where
  | getProductByIdCall (id : Nat)
  | updateProductCall (input : UpdateProductInput)
  | deleteProductCall (id : Nat)
deriving DecidableEq

/-- The merge performed by `updateProduct` before calling the store
(product service lines 515-523): `??` on name/price/category, and
`description !== undefined ? description || null : existing.description`
for the description (an explicit empty string becomes SQL NULL). -/
def mergedUpdateInput (id : Nat) (productData : UpdateProductDto)
    (existingProduct : ProductRec) : UpdateProductInput :=
  { Id := id,
    Name := productData.name.getD existingProduct.name,
    Description :=
      match productData.description with
      | some d => if d = "" then none else some d
      | none => existingProduct.description,
    Price := productData.price.getD existingProduct.price,
    Category := productData.category.getD existingProduct.category }

/-- `ProductService.updateProduct` (product service lines 500-562).
`getByIdResp` is the store's answer to the existence read, `updateResp`
the recordset of the `UpdateProduct` call; the second component is the
ordered list of store calls issued. -/
def updateProduct (id : Nat) (productData : UpdateProductDto)
    (getByIdResp : Option ProductRec) (updateResp : Option ProductRec) :
    Except AppError ProductRec × List StoreCall :=
  match getByIdResp with
  | none =>
    (.error ⟨"Product not found", 404, "PRODUCT_NOT_FOUND"⟩,
     [.getProductByIdCall id])
  | some existingProduct =>
    let input := mergedUpdateInput id productData existingProduct
    match updateResp with
    | none =>
      (.error ⟨"Failed to update product", 500, "PRODUCT_UPDATE_ERROR"⟩,
       [.getProductByIdCall id, .updateProductCall input])
    | some updatedProduct =>
      (.ok updatedProduct, [.getProductByIdCall id, .updateProductCall input])

/-- `ProductService.deleteProduct` (product service lines 567-602). -/
def deleteProduct (id : Nat) (getByIdResp : Option ProductRec) :
    Except AppError Unit × List StoreCall :=
  match getByIdResp with
  | none =>
    (.error ⟨"Product not found", 404, "PRODUCT_NOT_FOUND"⟩,
     [.getProductByIdCall id])
  | some _ =>
    (.ok (), [.getProductByIdCall id, .deleteProductCall id])

/-- A fixed product row used to instantiate witnesses. -/
def sampleProduct : ProductRec :=
  ⟨1, "Widget", some "A widget", 10, "Tools", "2024-01-01", "2024-01-02"⟩

/-! ## Theorems: C2, C3, C4, C5 -/

/-- C2: for an existing product and any partial body, `updateProduct` issues
the `UpdateProduct` store call only after the merge, and the merged input
satisfies: each present field overrides, each absent field carries the prior
value exactly, and an explicitly provided empty-string description (sent as
NULL) is treated differently from an omitted one (which retains the prior
value). -/
theorem updateProduct_merges_partial_before_store_call :
    ∀ (id : Nat) (dto : UpdateProductDto) (e : ProductRec)
      (updateResp : Option ProductRec),
      (updateProduct id dto (some e) updateResp).2 =
        [StoreCall.getProductByIdCall id,
         StoreCall.updateProductCall (mergedUpdateInput id dto e)] ∧
      (mergedUpdateInput id dto e).Id = id ∧
      (∀ n, dto.name = some n → (mergedUpdateInput id dto e).Name = n) ∧
      (dto.name = none → (mergedUpdateInput id dto e).Name = e.name) ∧
      (∀ p, dto.price = some p → (mergedUpdateInput id dto e).Price = p) ∧
      (dto.price = none → (mergedUpdateInput id dto e).Price = e.price) ∧
      (∀ c, dto.category = some c → (mergedUpdateInput id dto e).Category = c) ∧
      (dto.category = none → (mergedUpdateInput id dto e).Category = e.category) ∧
      (∀ d, dto.description = some d → d ≠ "" →
        (mergedUpdateInput id dto e).Description = some d) ∧
      (dto.description = some "" → (mergedUpdateInput id dto e).Description = none) ∧
      (dto.description = none →
        (mergedUpdateInput id dto e).Description = e.description) := by
  intro id dto e updateResp
  refine ⟨?_, rfl, ?_, ?_, ?_, ?_, ?_, ?_, ?_, ?_, ?_⟩
  · cases updateResp <;> simp [updateProduct]
  · intro n hn; simp [mergedUpdateInput, hn]
  · intro hn; simp [mergedUpdateInput, hn]
  · intro p hp; simp [mergedUpdateInput, hp]
  · intro hp; simp [mergedUpdateInput, hp]
  · intro c hc; simp [mergedUpdateInput, hc]
  · intro hc; simp [mergedUpdateInput, hc]
  · intro d hd hne; simp [mergedUpdateInput, hd, hne]
  · intro hd; simp [mergedUpdateInput, hd]
  · intro hd; simp [mergedUpdateInput, hd]

/-- Witness for C2: a price-only update of a concrete product sends the
prior name/category, the new price, and—in a second body—an explicit empty
description becomes NULL while an omitted one keeps the prior value. -/
theorem updateProduct_merges_partial_before_store_call_witness :
    (updateProduct 1 ⟨none, none, some (149.99 : ℚ), none⟩
        (some sampleProduct) (some sampleProduct)).2 =
      [StoreCall.getProductByIdCall 1,
       StoreCall.updateProductCall
         (mergedUpdateInput 1 ⟨none, none, some (149.99 : ℚ), none⟩ sampleProduct)] ∧
    (mergedUpdateInput 1 ⟨none, none, some (149.99 : ℚ), none⟩
        sampleProduct).Name = sampleProduct.name ∧
    (mergedUpdateInput 1 ⟨none, none, some (149.99 : ℚ), none⟩
        sampleProduct).Price = (149.99 : ℚ) ∧
    (mergedUpdateInput 1 ⟨none, none, some (149.99 : ℚ), none⟩
        sampleProduct).Description = sampleProduct.description ∧
    (mergedUpdateInput 1 ⟨none, some "", none, none⟩
        sampleProduct).Description = none := by
  obtain ⟨ht, _, _, hn2, hp1, _, _, _, _, _, hd3⟩ :=
    updateProduct_merges_partial_before_store_call 1
      ⟨none, none, some (149.99 : ℚ), none⟩ sampleProduct (some sampleProduct)
  obtain ⟨_, _, _, _, _, _, _, _, _, hd2, _⟩ :=
    updateProduct_merges_partial_before_store_call 1
      ⟨none, some "", none, none⟩ sampleProduct (some sampleProduct)
  exact ⟨ht, hn2 rfl, hp1 _ rfl, hd3 rfl, hd2 rfl⟩

/-- C3 counterexample: with `pageNumber = 2` and an empty store result, the
returned pagination has `currentPage = 2 > 1` but `hasPreviousPage = false`,
so the universally stated formula `hasPreviousPage = (currentPage > 1)`
fails on the empty-result branch. -/
theorem getProducts_empty_page2_counterexample :
    getProducts ⟨some 2, some 10, none, none, none, none, none, none⟩
        (.ok []) =
      .ok ⟨[], ⟨2, 10, 0, 0, false, false⟩, none⟩ ∧
    (1 : Nat) < 2 ∧
    (false : Bool) ≠ decide ((1 : Nat) < 2) := by
  refine ⟨rfl, by decide, by decide⟩

/-- C3 (amended): for every query and store result, the returned pagination
satisfies `totalPages = ceil(totalCount / pageSize)` and
`hasNextPage = (currentPage < totalPages)`; whenever the store result is
non-empty, `hasPreviousPage = (currentPage > 1)`; and an empty store result
yields the zeroed empty-page shape with no error. -/
theorem getProducts_pagination_formulas :
    ∀ (q : ProductQuery) (rows : List ProductRow) (r : ProductListResponse),
      0 < q.pageSize.getD 10 →
      (getProducts q (.ok rows) = .ok r →
        (r.pagination.totalPages =
          jsMathCeilDiv r.pagination.totalCount r.pagination.pageSize ∧
         r.pagination.hasNextPage =
          decide (r.pagination.currentPage < r.pagination.totalPages) ∧
         (rows ≠ [] →
          r.pagination.hasPreviousPage = decide (1 < r.pagination.currentPage)))) ∧
      (rows = [] →
        getProducts q (.ok rows) =
          .ok ⟨[], ⟨q.pageNumber.getD 1, q.pageSize.getD 10, 0, 0, false, false⟩,
               none⟩) := by
  intro q rows r hps
  constructor
  · intro hr
    unfold getProducts at hr
    cases rows with
    | nil =>
      simp at hr
      subst hr
      refine ⟨?_, by simp, fun h => absurd rfl h⟩
      have hd : (q.pageSize.getD 10 - 1) / q.pageSize.getD 10 = 0 :=
        Nat.div_eq_of_lt (by omega)
      simp [jsMathCeilDiv, hd]
    | cons first rest =>
      simp at hr
      subst hr
      exact ⟨rfl, rfl, fun _ => rfl⟩
  · intro hrows
    subst hrows
    unfold getProducts
    simp

/-- Witness for C3: the formulas evaluated on a one-row result with
`TotalCount = 25` and the default query, plus the empty-result shape. -/
theorem getProducts_pagination_formulas_witness :
    ((⟨[sampleProduct], ⟨1, 10, 25, 3, true, false⟩, none⟩ :
        ProductListResponse).pagination.totalPages =
      jsMathCeilDiv 25 10) ∧
    ((⟨[sampleProduct], ⟨1, 10, 25, 3, true, false⟩, none⟩ :
        ProductListResponse).pagination.hasPreviousPage =
      decide ((1 : Nat) < 1)) ∧
    getProducts ⟨none, none, none, none, none, none, none, none⟩ (.ok []) =
      .ok ⟨[], ⟨1, 10, 0, 0, false, false⟩, none⟩ := by
  have h := getProducts_pagination_formulas
    ⟨none, none, none, none, none, none, none, none⟩
    [⟨sampleProduct, 25⟩]
    ⟨[sampleProduct], ⟨1, 10, 25, 3, true, false⟩, none⟩ (by decide)
  have h0 := getProducts_pagination_formulas
    ⟨none, none, none, none, none, none, none, none⟩ ([] : List ProductRow)
    ⟨[], ⟨1, 10, 0, 0, false, false⟩, none⟩ (by decide)
  obtain ⟨h1, _, h3⟩ := h.1 rfl
  exact ⟨h1, h3 (by decide), h0.2 rfl⟩

/-- C4: when price bounds are supplied and the store page is non-empty,
every returned item's price lies within the supplied bounds (the filter runs
client-side over the rows the store returned), while `totalCount` and
`totalPages` still come from the store's pre-filter total-count column and
are not recomputed after filtering. -/
theorem getProducts_clientside_filter_keeps_stale_totals :
    ∀ (q : ProductQuery) (rows : List ProductRow) (r : ProductListResponse),
      getProducts q (.ok rows) = .ok r →
      rows ≠ [] →
      (q.minPrice.isSome ∨ q.maxPrice.isSome) →
      ((∀ p ∈ r.products,
         (∀ m, q.minPrice = some m → m ≤ p.price) ∧
         (∀ M, q.maxPrice = some M → p.price ≤ M)) ∧
       r.pagination.totalCount = ((rows.head?.map (·.TotalCount)).getD 0) ∧
       r.pagination.totalPages =
         jsMathCeilDiv ((rows.head?.map (·.TotalCount)).getD 0)
           (q.pageSize.getD 10)) := by
  intro q rows r hr hne hbounds
  unfold getProducts at hr
  cases rows with
  | nil => exact absurd rfl hne
  | cons first rest =>
    have hcond : (q.minPrice.isSome || q.maxPrice.isSome) = true := by
      rcases hbounds with h | h <;> simp [h]
    simp [hcond] at hr
    subst hr
    refine ⟨?_, rfl, rfl⟩
    intro p hp
    simp only [List.mem_map] at hp
    obtain ⟨row, hrow, rfl⟩ := hp
    have hpred := (List.mem_filter.mp hrow).2
    constructor
    · intro m hm
      rw [hm] at hpred
      simp at hpred
      exact le_of_not_lt (by simpa using hpred.1)
    · intro M hM
      rw [hM] at hpred
      simp at hpred
      exact le_of_not_lt (by simpa using hpred.2)

/-- Witness for C4: `minPrice = 5` over a one-row page with
`TotalCount = 42`: the kept item's price is ≥ 5 and the reported totalCount
is the pre-filter 42. -/
theorem getProducts_clientside_filter_keeps_stale_totals_witness :
    (5 : ℚ) ≤ sampleProduct.price ∧
    ((⟨[sampleProduct], ⟨1, 10, 42, 5, true, false⟩,
        some ⟨none, none, some 5, none⟩⟩ :
       ProductListResponse).pagination.totalCount =
      ((([⟨sampleProduct, 42⟩] : List ProductRow).head?.map
          (·.TotalCount)).getD 0)) := by
  have h := getProducts_clientside_filter_keeps_stale_totals
    ⟨some 1, some 10, none, none, none, none, some 5, none⟩
    [⟨sampleProduct, 42⟩]
    ⟨[sampleProduct], ⟨1, 10, 42, 5, true, false⟩, some ⟨none, none, some 5, none⟩⟩
    rfl (by decide) (Or.inl (by decide))
  exact ⟨(h.1 sampleProduct (by decide)).1 5 rfl, h.2.1⟩

/-- C5: when the existence read returns no product, both `updateProduct`
and `deleteProduct` fail with the 404 `PRODUCT_NOT_FOUND` error and the only
store call issued is the existence read — no `UpdateProduct` or
`DeleteProduct` call ever happens on the not-found path. -/
theorem updateDelete_notFound_before_any_mutation :
    ∀ (id : Nat) (dto : UpdateProductDto) (updateResp : Option ProductRec),
      updateProduct id dto none updateResp =
        (.error ⟨"Product not found", 404, "PRODUCT_NOT_FOUND"⟩,
         [.getProductByIdCall id]) ∧
      deleteProduct id none =
        (.error ⟨"Product not found", 404, "PRODUCT_NOT_FOUND"⟩,
         [.getProductByIdCall id]) ∧
      (∀ c ∈ (updateProduct id dto none updateResp).2,
        (∀ i, c ≠ StoreCall.updateProductCall i) ∧
        (∀ j, c ≠ StoreCall.deleteProductCall j)) ∧
      (∀ c ∈ (deleteProduct id none).2,
        (∀ i, c ≠ StoreCall.updateProductCall i) ∧
        (∀ j, c ≠ StoreCall.deleteProductCall j)) := by
  intro id dto updateResp
  refine ⟨rfl, rfl, ?_, ?_⟩
  · intro c hc
    simp [updateProduct] at hc
    subst hc
    exact ⟨fun i => by simp, fun j => by simp⟩
  · intro c hc
    simp [deleteProduct] at hc
    subst hc
    exact ⟨fun i => by simp, fun j => by simp⟩

/-- Witness for C5: a not-found update and delete at id 5 return the 404
error having issued only the existence read, which is not a mutating call. -/
theorem updateDelete_notFound_before_any_mutation_witness :
    updateProduct 5 ⟨none, none, none, none⟩ none none =
      (.error ⟨"Product not found", 404, "PRODUCT_NOT_FOUND"⟩,
       [.getProductByIdCall 5]) ∧
    deleteProduct 5 none =
      (.error ⟨"Product not found", 404, "PRODUCT_NOT_FOUND"⟩,
       [.getProductByIdCall 5]) ∧
    StoreCall.getProductByIdCall 5 ≠
      StoreCall.updateProductCall ⟨5, "x", none, 1, "y"⟩ ∧
    StoreCall.getProductByIdCall 5 ≠ StoreCall.deleteProductCall 5 := by
  have h := updateDelete_notFound_before_any_mutation 5 ⟨none, none, none, none⟩ none
  exact ⟨h.1, h.2.1,
    (h.2.2.1 (StoreCall.getProductByIdCall 5) (by decide)).1 ⟨5, "x", none, 1, "y"⟩,
    (h.2.2.2 (StoreCall.getProductByIdCall 5) (by decide)).2 5⟩

/-! ## Validation engine (validation.middleware.ts + validation.schemas.ts) -/

/-- A JSON value on an input surface (the shapes the create-product schema
distinguishes: strings, numbers, anything else). -/
inductive JsonVal where
  | jstr (s : String)
  | jnum (q : ℚ)
  | jother
deriving DecidableEq

/-- JavaScript `s.trim()`: strip leading and trailing whitespace
(structurally, so that it evaluates inside the kernel). -/
def jsTrim (s : String) : String :=
  String.mk
    (((s.toList.dropWhile (·.isWhitespace)).reverse.dropWhile
        (·.isWhitespace)).reverse)

/-- Digit run to its numeric value; `none` on an empty run or a non-digit. -/
def digitsVal (cs : List Char) : Option Nat :=
  if cs.isEmpty then none
  else cs.foldl
    (fun acc c =>
      acc.bind (fun n => if c.isDigit then some (n * 10 + (c.toNat - 48)) else none))
    (some 0)

/-- Modelled from the spec ("numeric strings become numbers"): Joi's
number coercion for plain decimal literals, `[-]digits[.digits]`. Exotic
JavaScript numeric forms (exponents, leading `.`) are rejected; no schema
claim exercises them. -/
def parseJsNumber (s : String) : Option ℚ :=
  let t := (jsTrim s).toList
  let signAndRest : Bool × List Char :=
    match t with
    | '-' :: cs => (true, cs)
    | cs => (false, cs)
  match signAndRest.2.splitOn '.' with
  | [ip] => (digitsVal ip).map
      (fun n => if signAndRest.1 then -(n : ℚ) else (n : ℚ))
  | [ip, fp] =>
    match digitsVal ip, digitsVal fp with
    | some n, some f =>
      let q : ℚ := (n : ℚ) + (f : ℚ) / ((10 : ℚ) ^ fp.length)
      some (if signAndRest.1 then -q else q)
    | _, _ => none
  | _ => none

/-- `name` rules of `createProductSchema` (validation.schemas.ts lines
5-16): string, trimmed, min 1, max 255, required, with the declared
messages. -/
def validateName (v : Option JsonVal) : List String :=
  match v with
  | none => ["Name is required"]
  | some (.jstr s) =>
    let t := jsTrim s
    if t = "" then ["Name cannot be empty"]
    else if 255 < t.length then ["Name must not exceed 255 characters"]
    else []
  | some _ => ["Name must be a string"]

/-- `description` rules (lines 18-26): optional string, trimmed, max 1000,
empty allowed. -/
def validateDescription (v : Option JsonVal) : List String :=
  match v with
  | none => []
  | some (.jstr s) =>
    if 1000 < (jsTrim s).length then ["Description must not exceed 1000 characters"]
    else []
  | some _ => ["Description must be a string"]

/-- `price` rules (lines 28-39): number (with string coercion), positive,
at most 2 decimal places, max 999999.99, required. All violated rules
report (Joi runs with `abortEarly: false`). -/
def validatePrice (v : Option JsonVal) : List String :=
  match v with
  | none => ["Price is required"]
  | some v =>
    match (match v with
           | .jnum q => some q
           | .jstr s => parseJsNumber s
           | .jother => none) with
    | none => ["Price must be a number"]
    | some q =>
      -- at most 2 decimal places ⟺ the reduced denominator divides 100;
      -- q > 999999.99 ⟺ 99999999·den < 100·num (kernel-computable forms)
      (if q ≤ 0 then ["Price must be greater than 0"] else []) ++
      (if 100 % q.den ≠ 0 then ["Price can have at most 2 decimal places"] else []) ++
      (if (99999999 : ℤ) * (q.den : ℤ) < q.num * 100 then
        ["Price must not exceed 999,999.99"] else [])

/-- `category` rules (lines 41-52): string, trimmed, min 1, max 100,
required. -/
def validateCategory (v : Option JsonVal) : List String :=
  match v with
  | none => ["Category is required"]
  | some (.jstr s) =>
    let t := jsTrim s
    if t = "" then ["Category cannot be empty"]
    else if 100 < t.length then ["Category must not exceed 100 characters"]
    else []
  | some _ => ["Category must be a string"]

/-- Field lookup in a request body object (unknown keys are stripped by the
schema, i.e. simply never looked up). -/
def getField (body : List (String × JsonVal)) (k : String) : Option JsonVal :=
  (body.find? (fun p => p.1 == k)).map Prod.snd

/-- `createProductSchema.validate(body, {abortEarly: false, ...})`: the
violation messages of every field, in schema key order, concatenated. -/
def createProductValidate (body : List (String × JsonVal)) : List String :=
  validateName (getField body "name") ++
  validateDescription (getField body "description") ++
  validatePrice (getField body "price") ++
  validateCategory (getField body "category")

/-- Outcome of the validation middleware: a 400 rejection carrying the
aggregated details, or `next()` (handler invoked). -/
inductive MwOutcome where
  | reject (status : Nat) (message : String) (code : String) (details : List String)
  | next
deriving DecidableEq

/-- `validate(options)` middleware (validation.middleware.ts lines 14-96):
each configured surface (body, params, query, headers) contributes its
schema's violation messages (`none` = surface not configured); all
violations are concatenated and, if any exist, a single aggregated 400
`VALIDATION_ERROR` response is sent instead of calling `next()`. -/
def validate (bodyRes paramsRes queryRes headersRes : Option (List String)) :
    MwOutcome :=
  let errors := bodyRes.getD [] ++ paramsRes.getD [] ++ queryRes.getD [] ++
    headersRes.getD []
  if 0 < errors.length then
    .reject 400 "Validation failed" "VALIDATION_ERROR" errors
  else .next

/-! ## Credential service register/login (auth.service.ts) -/

/-- `authConfig.jwtExpiresIn` (auth.config.ts line 8, default). -/
def jwtExpiresIn : String := "24h"

/-- JavaScript `s.includes(sub)`. -/
def jsIncludes (s sub : String) : Bool := (s.splitOn sub).length != 1

/-- Register payload (`CreateUserDto`). -/
structure CreateUserDto where
  username : String
  email : String
  password : String
deriving DecidableEq

/-- Login payload (`LoginDto`). -/
structure LoginDto where
  username : String
  password : String
deriving DecidableEq

/-- `AuthResponse`: the user is the serialized response object, modelled as
the ordered key/value list of the object literal that builds it. -/
structure AuthResponse where
  user : List (String × JsonVal)
  token : String
  expiresIn : String
deriving DecidableEq

/-- The user object literal built by `register` (auth.service.ts lines
50-57) and `login` (lines 113-120): exactly id, username, email, createdAt,
updatedAt. -/
def userResponseObject (u : UserRec) : List (String × JsonVal) :=
  [("id", .jnum u.id), ("username", .jstr u.username),
   ("email", .jstr u.email), ("createdAt", .jstr u.createdAt),
   ("updatedAt", .jstr u.updatedAt)]

/-- `AuthService.register` (auth.service.ts lines 18-73). `createResp` is
the `CreateUser` stored-procedure response (the hashed password goes into
that call, whose inputs are not tracked here); `sign` is `generateToken`.
The catch block rewraps duplicate-key errors and rethrows the rest. -/
def register (userData : CreateUserDto)
    (createResp : Except String (List UserRec))
    (sign : JwtPayload → String) : Except String AuthResponse :=
  let result : Except String AuthResponse :=
    match createResp with
    | .error e => .error e
    | .ok [] => .error "Failed to create user"
    | .ok (newUser :: _) =>
      .ok { user := userResponseObject newUser,
            token := sign ⟨newUser.id, newUser.username, newUser.email⟩,
            expiresIn := jwtExpiresIn }
  match result with
  | .ok r => .ok r
  | .error m =>
    if jsIncludes m "already exists" then .error "Username or email already exists"
    else .error m

/-- `AuthService.login` (auth.service.ts lines 78-133). `lookupResp` is the
`GetUserByUsername` response, `compare` is `bcrypt.compare`. The catch
block rethrows only the exact "Invalid credentials" error and maps every
other failure to "Login failed". -/
def login (loginData : LoginDto)
    (lookupResp : Except String (List UserRec))
    (compare : String → String → Bool)
    (sign : JwtPayload → String) : Except String AuthResponse :=
  let result : Except String AuthResponse :=
    match lookupResp with
    | .error e => .error e
    | .ok [] => .error "Invalid credentials"
    | .ok (user :: _) =>
      match user.passwordHash with
      | none => .error "Invalid user data"
      | some h =>
        if h = "" then .error "Invalid user data"
        else if compare loginData.password h then
          .ok { user := userResponseObject user,
                token := sign ⟨user.id, user.username, user.email⟩,
                expiresIn := jwtExpiresIn }
        else .error "Invalid credentials"
  match result with
  | .ok r => .ok r
  | .error m =>
    if m = "Invalid credentials" then .error "Invalid credentials"
    else .error "Login failed"

/-- A fixed stored user (with a password hash column) for witnesses. -/
def sampleUser : UserRec :=
  ⟨1, "johndoe", "john@example.com", some "h4sh", "t0", "t1"⟩

/-! ## Theorems: C8, C9, C10 -/

/-- C8: validation collects all rule violations before responding: the body
`{name: "", price: -10, category: "Electronics"}` against the create-product
schema yields both the empty-name and the non-positive-price messages (two
distinct messages, so at least two), and the pipeline rejects with a single
aggregated 400 `VALIDATION_ERROR` response instead of invoking the handler. -/
theorem createProduct_validation_collects_all_violations :
    "Name cannot be empty" ∈
      createProductValidate
        [("name", JsonVal.jstr ""), ("price", JsonVal.jnum (-10)),
         ("category", JsonVal.jstr "Electronics")] ∧
    "Price must be greater than 0" ∈
      createProductValidate
        [("name", JsonVal.jstr ""), ("price", JsonVal.jnum (-10)),
         ("category", JsonVal.jstr "Electronics")] ∧
    "Name cannot be empty" ≠ "Price must be greater than 0" ∧
    2 ≤ (createProductValidate
        [("name", JsonVal.jstr ""), ("price", JsonVal.jnum (-10)),
         ("category", JsonVal.jstr "Electronics")]).length ∧
    validate
      (some (createProductValidate
        [("name", JsonVal.jstr ""), ("price", JsonVal.jnum (-10)),
         ("category", JsonVal.jstr "Electronics")])) none none none =
      .reject 400 "Validation failed" "VALIDATION_ERROR"
        (createProductValidate
          [("name", JsonVal.jstr ""), ("price", JsonVal.jnum (-10)),
           ("category", JsonVal.jstr "Electronics")]) := by
  refine ⟨by decide, by decide, by decide, by decide, rfl⟩

/-- C9: the user object of a successful register or login response is built
only from id, username, email, createdAt, updatedAt — the password hash
field is never serialized outward. -/
theorem authResponse_never_contains_passwordHash :
    (∀ d resp sign r, register d resp sign = .ok r →
      r.user.map Prod.fst = ["id", "username", "email", "createdAt", "updatedAt"] ∧
      "passwordHash" ∉ r.user.map Prod.fst) ∧
    (∀ d resp compare sign r, login d resp compare sign = .ok r →
      r.user.map Prod.fst = ["id", "username", "email", "createdAt", "updatedAt"] ∧
      "passwordHash" ∉ r.user.map Prod.fst) := by
  constructor
  · intro d resp sign r hr
    have huser : ∃ u : UserRec, r.user = userResponseObject u := by
      unfold register at hr
      cases resp with
      | error e =>
        dsimp only at hr
        split at hr <;> simp at hr
      | ok l =>
        cases l with
        | nil =>
          dsimp only at hr
          split at hr <;> simp at hr
        | cons u rest =>
          dsimp only at hr
          simp at hr
          exact ⟨u, by rw [← hr]⟩
    obtain ⟨u, hu⟩ := huser
    rw [hu]
    exact ⟨rfl, by simp [userResponseObject]⟩
  · intro d resp compare sign r hr
    have huser : ∃ u : UserRec, r.user = userResponseObject u := by
      unfold login at hr
      cases resp with
      | error e =>
        dsimp only at hr
        split at hr <;> simp at hr
      | ok l =>
        cases l with
        | nil =>
          dsimp only at hr
          split at hr <;> simp at hr
        | cons u rest =>
          dsimp only at hr
          cases hph : u.passwordHash with
          | none => rw [hph] at hr; simp at hr
          | some h =>
            rw [hph] at hr
            by_cases hempty : h = ""
            · simp [hempty] at hr
            · simp only [if_neg hempty] at hr
              cases hcmp : compare d.password h with
              | true =>
                simp [hcmp] at hr
                exact ⟨u, by rw [← hr]⟩
              | false => simp [hcmp] at hr
    obtain ⟨u, hu⟩ := huser
    rw [hu]
    exact ⟨rfl, by simp [userResponseObject]⟩

/-- Witness for C9: a successful register and a successful login against a
concrete stored user both serialize exactly the five public keys. -/
theorem authResponse_never_contains_passwordHash_witness :
    (AuthResponse.mk (userResponseObject sampleUser) "tok" "24h").user.map
        Prod.fst =
      ["id", "username", "email", "createdAt", "updatedAt"] ∧
    "passwordHash" ∉
      (AuthResponse.mk (userResponseObject sampleUser) "tok" "24h").user.map
        Prod.fst := by
  have h := authResponse_never_contains_passwordHash.1
    ⟨"johndoe", "john@example.com", "SecurePass123!"⟩
    (.ok [sampleUser]) (fun _ => "tok")
    (AuthResponse.mk (userResponseObject sampleUser) "tok" "24h") rfl
  have h2 := authResponse_never_contains_passwordHash.2
    ⟨"johndoe", "SecurePass123!"⟩
    (.ok [sampleUser]) (fun _ _ => true) (fun _ => "tok")
    (AuthResponse.mk (userResponseObject sampleUser) "tok" "24h") rfl
  exact ⟨h.1, h2.2⟩

/-- C10: the two causes of a failed login are indistinguishable: an unknown
username and a known username with a failing password comparison both make
`login` fail with the identical "Invalid credentials" error. -/
theorem login_failure_causes_indistinguishable :
    (∀ d compare sign,
      login d (.ok []) compare sign = .error "Invalid credentials") ∧
    (∀ d u rest h compare sign, u.passwordHash = some h → h ≠ "" →
      compare d.password h = false →
      login d (.ok (u :: rest)) compare sign = .error "Invalid credentials") := by
  constructor
  · intro d compare sign
    rfl
  · intro d u rest h compare sign hph hne hcmp
    unfold login
    dsimp only
    rw [hph]
    simp [hne, hcmp]

/-- Witness for C10: a concrete unknown-user login and a concrete
wrong-password login both produce exactly "Invalid credentials". -/
theorem login_failure_causes_indistinguishable_witness :
    login ⟨"johndoe", "wrong"⟩ (.ok []) (fun _ _ => false) (fun _ => "tok") =
      .error "Invalid credentials" ∧
    login ⟨"johndoe", "wrong"⟩ (.ok [sampleUser]) (fun _ _ => false)
        (fun _ => "tok") =
      .error "Invalid credentials" :=
  ⟨login_failure_causes_indistinguishable.1 ⟨"johndoe", "wrong"⟩
      (fun _ _ => false) (fun _ => "tok"),
   login_failure_causes_indistinguishable.2 ⟨"johndoe", "wrong"⟩ sampleUser []
      "h4sh" (fun _ _ => false) (fun _ => "tok") rfl (by decide) rfl⟩
